import Mathlib

/-!
Shallow embedding of the command-safety verifier (`src/command_verifier.py`)
and the hybrid question classifier (`src/question_classifier.py`) of the
`ssd` repository, together with theorems settling the frozen claims.

Modelling conventions:
* Python strings are Lean `String`s; all scanning works on `String.data`.
* Python floats are modelled as exact rationals (`Rat`).  Every comparison
  that decides a branch in the theorems below was checked to give the same
  answer under IEEE-754 double arithmetic as under exact rational
  arithmetic (e.g. in doubles `0.5 - 0.2 + 0.1 == 0.4` holds exactly, and
  `0.5 + 0.2 == 0.7` holds exactly), so the rational model is faithful on
  every decisive comparison appearing in this development.
* The `re` regular expressions of the source are embedded as terms of a
  small regex AST `RE` with a backtracking matcher; `re.IGNORECASE`
  searches are modelled by searching the lower-cased subject with the
  (all-lower-case) pattern, which is equivalent for the ASCII patterns of
  the source.
-/

namespace SSD

/-- Python `str.isspace` / `\s` for the ASCII range: the characters
`' '`, `'\t'`, `'\n'`, `'\x0b'`, `'\x0c'`, `'\r'`. -/
def isPySpace (c : Char) : Bool :=
  c = ' ' || c = '\t' || c = '\n' || c = '\x0b' || c = '\x0c' || c = '\r'

/-- `\w` of Python `re` restricted to ASCII: letters, digits, underscore. -/
def isWordChar (c : Char) : Bool :=
  ('a' ≤ c && c ≤ 'z') || ('A' ≤ c && c ≤ 'Z') || ('0' ≤ c && c ≤ '9') || c = '_'

/-- Python `str.lower` (ASCII fragment). -/
def strLower (s : String) : String :=
  String.mk (s.data.map Char.toLower)

/-- Regex AST covering the constructs used by the source patterns:
character classes, concatenation, alternation, Kleene star and negative
lookahead `(?!r)`.  A word boundary `\b` that follows a word character is
expressible as `nlk (cls isWordChar)`. -/
inductive RE where
  | eps : RE
  | cls : (Char → Bool) → RE
  | cat : RE → RE → RE
  | alt : RE → RE → RE
  | star : RE → RE
  | nlk : RE → RE

/-- Literal single character. -/
def RE.chc (c : Char) : RE := .cls (fun d => d = c)

/-- Literal string. -/
def RE.lit (s : String) : RE := s.data.foldr (fun c r => .cat (.chc c) r) .eps

/-- `r+`. -/
def RE.plus (r : RE) : RE := .cat r (.star r)

/-- `r?`. -/
def RE.opt (r : RE) : RE := .alt r .eps

/-- n-ary alternation `(a|b|...)`. -/
def RE.alts : List RE → RE
  | [] => .cls (fun _ => false)
  | [r] => r
  | r :: rs => .alt r (RE.alts rs)

/-- `\s` as a regex. -/
def RE.wsp : RE := .cls isPySpace

/-- `.` of `re` without `DOTALL`: any character except a newline. -/
def RE.dotc : RE := .cls (fun c => c ≠ '\n')

/-- Structural size of a regex, used to provision matcher fuel. -/
def RE.size : RE → Nat
  | .eps => 1
  | .cls _ => 1
  | .cat a b => a.size + b.size + 1
  | .alt a b => a.size + b.size + 1
  | .star r => r.size + 1
  | .nlk r => r.size + 1

/-- Fuelled backtracking matcher in continuation style.  `reMatch f r s k`
is true when some prefix of `s` matches `r` and the continuation `k`
accepts the corresponding remainder.  Matching explores every
alternative, so the boolean answer is independent of greediness order. -/
def reMatch : Nat → RE → List Char → (List Char → Bool) → Bool
  | 0, _, _, _ => false
  | _ + 1, .eps, s, k => k s
  | _ + 1, .cls p, s, k =>
      match s with
      | [] => false
      | c :: t => p c && k t
  | f + 1, .cat a b, s, k => reMatch f a s (fun t => reMatch f b t k)
  | f + 1, .alt a b, s, k => reMatch f a s k || reMatch f b s k
  | f + 1, .star r, s, k =>
      k s || reMatch f r s (fun t =>
        if t.length < s.length then reMatch f (.star r) t k else false)
  | f + 1, .nlk r, s, k => !reMatch f r s (fun _ => true) && k s

/-- `re.search`: the pattern matches starting at some position of the
subject (including the end-of-string position).  The fuel is generous for
the star-nesting depth (at most one) of every pattern in the source. -/
def reSearch (r : RE) (s : List Char) : Bool :=
  s.tails.any (fun t => reMatch ((r.size + 2) * (t.length + 2)) r t (fun _ => true))

/-! ### Pattern library of `CommandVerifier` -/

/-- A pattern of the verifier: the raw source text of the Python regex
(used verbatim in rejection reasons) paired with its embedding. -/
structure Pat where
  src : String
  re : RE

/-- The alternation `(grep|awk|sed|xargs|rm|mv|cp|sh|bash|zsh|fish|python|perl|ruby|php)`. -/
def pipeTargets : RE :=
  RE.alts (["grep", "awk", "sed", "xargs", "rm", "mv", "cp", "sh", "bash",
            "zsh", "fish", "python", "perl", "ruby", "php"].map RE.lit)

/-- The alternation `(rm|mv|cp|sh|bash|zsh|fish|python|perl|ruby|php)`. -/
def chainTargets : RE :=
  RE.alts (["rm", "mv", "cp", "sh", "bash", "zsh", "fish", "python", "perl",
            "ruby", "php"].map RE.lit)

/-- `(?!/dev/null\b)`: the `\b` follows the word character `l`, so it is
the requirement that no word character follows. -/
def notDevNull : RE :=
  .nlk (.cat (.lit "/dev/null") (.nlk (.cls isWordChar)))

/-- `CommandVerifier.UNSAFE_PATTERNS`, in source order.  These are searched
with `re.IGNORECASE`, modelled by searching the lower-cased command. -/
def DANGER_PATTERNS : List Pat := [
  -- Command injection patterns
  ⟨"\\|\\s*(grep|awk|sed|xargs|rm|mv|cp|sh|bash|zsh|fish|python|perl|ruby|php)",
    .cat (.chc '|') (.cat (.star .wsp) pipeTargets)⟩,
  ⟨";\\s*(rm|mv|cp|sh|bash|zsh|fish|python|perl|ruby|php)",
    .cat (.chc ';') (.cat (.star .wsp) chainTargets)⟩,
  ⟨"&\\s*(rm|mv|cp|sh|bash|zsh|fish|python|perl|ruby|php)",
    .cat (.chc '&') (.cat (.star .wsp) chainTargets)⟩,
  ⟨"&&\\s*(rm|mv|cp|sh|bash|zsh|fish|python|perl|ruby|php)",
    .cat (.lit "&&") (.cat (.star .wsp) chainTargets)⟩,
  ⟨"\\|\\|\\s*(rm|mv|cp|sh|bash|zsh|fish|python|perl|ruby|php)",
    .cat (.lit "||") (.cat (.star .wsp) chainTargets)⟩,
  -- File operations (block dangerous redirections)
  ⟨"\\s>\\s+(?!/dev/null\\b)",
    .cat .wsp (.cat (.chc '>') (.cat (.plus .wsp) notDevNull))⟩,
  ⟨"\\s>>\\s+", .cat .wsp (.cat (.lit ">>") (.plus .wsp))⟩,
  ⟨"\\s<\\s+(?!/dev/)",
    .cat .wsp (.cat (.chc '<') (.cat (.plus .wsp) (.nlk (.lit "/dev/"))))⟩,
  ⟨"\\s2>\\s+", .cat .wsp (.cat (.lit "2>") (.plus .wsp))⟩,
  ⟨"\\s1>\\s+", .cat .wsp (.cat (.lit "1>") (.plus .wsp))⟩,
  -- Command substitution
  ⟨"\\$\\(", .lit "$("⟩,
  ⟨"`.*`", .cat (.chc '\x60') (.cat (.star .dotc) (.chc '\x60'))⟩,
  -- Environment variables that could be dangerous (lower-cased literals
  -- because the lower-cased command is searched)
  ⟨"\\$HOME", .lit "$home"⟩,
  ⟨"\\$PATH", .lit "$path"⟩,
  ⟨"\\$SHELL", .lit "$shell"⟩,
  -- Direct file system access
  ⟨"/etc/", .lit "/etc/"⟩,
  ⟨"/var/", .lit "/var/"⟩,
  ⟨"/usr/", .lit "/usr/"⟩,
  ⟨"/bin/", .lit "/bin/"⟩,
  ⟨"/sbin/", .lit "/sbin/"⟩,
  ⟨"/tmp/", .lit "/tmp/"⟩,
  ⟨"~/", .lit "~/"⟩,
  -- Network operations
  ⟨"curl", .lit "curl"⟩,
  ⟨"wget", .lit "wget"⟩,
  ⟨"nc", .lit "nc"⟩,
  ⟨"netcat", .lit "netcat"⟩,
  ⟨"telnet", .lit "telnet"⟩,
  ⟨"ssh", .lit "ssh"⟩,
  ⟨"scp", .lit "scp"⟩,
  ⟨"rsync", .lit "rsync"⟩,
  -- Process control
  ⟨"kill", .lit "kill"⟩,
  ⟨"ps", .lit "ps"⟩,
  ⟨"pkill", .lit "pkill"⟩,
  ⟨"killall", .lit "killall"⟩,
  -- Package management
  ⟨"apt", .lit "apt"⟩,
  ⟨"yum", .lit "yum"⟩,
  ⟨"dnf", .lit "dnf"⟩,
  ⟨"pacman", .lit "pacman"⟩,
  ⟨"brew", .lit "brew"⟩,
  -- Shell features
  ⟨"\\*\\*", .lit "**"⟩,
  ⟨"\\?\\(", .lit "?("⟩,
  ⟨"\\$\\\x7b", .lit ("$" ++ "\x7b")⟩,
  ⟨"<<", .lit "<<"⟩,
  ⟨"<<<", .lit "<<<"⟩]

/-- `CommandVerifier.ALLOWED_PATTERNS`.  These are searched on the original
command without `re.IGNORECASE` (line 196 of the source passes no flag). -/
def ALLOWED_PATTERNS : List Pat := [
  ⟨"<[^>]+>", .cat (.chc '<') (.cat (.plus (.cls (fun c => c ≠ '>'))) (.chc '>'))⟩,
  ⟨">\\s*/dev/null", .cat (.chc '>') (.cat (.star .wsp) (.lit "/dev/null"))⟩,
  ⟨"</dev/", .lit "</dev/"⟩]

/-- `CommandVerifier.READ_ONLY_VERBS` (written as the set literal of the
source; only membership is ever used). -/
def READ_ONLY_VERBS : List String :=
  ["get", "describe", "logs", "explain", "top", "auth", "api-versions",
   "cluster-info", "version", "config", "view", "help"]

/-- `CommandVerifier.SAFE_FLAGS`, in source order (the duplicate
`--field-selector` entry of the source set literal is kept; only
membership is ever used). -/
def SAFE_FLAGS : List String :=
  ["-n", "--namespace", "-o", "--output", "-w", "--watch", "--watch-only",
   "-l", "--labels", "-f", "--field-selector", "-A", "--all-namespaces",
   "-s", "--show-labels", "--show-managed-fields", "--sort-by",
   "--selector", "--field-selector", "--server-side", "--chunk-size",
   "-v", "--v", "--vmodule", "--log-flush-frequency", "--log-backtrace-at",
   "--log-dir", "--logtostderr", "--alsologtostderr", "--log-file",
   "--log-file-max-size", "--skip-headers", "--skip-log-headers",
   "--one-output", "--log-json", "--short", "--client", "--server"]

/-! ### String helpers mirroring the Python builtins used by the source -/

/-- Drop trailing whitespace of a character list. -/
def rstripL (l : List Char) : List Char :=
  (l.reverse.dropWhile isPySpace).reverse

/-- Python `str.strip()` (no argument): drop leading and trailing
whitespace. -/
def pyStrip (s : String) : String :=
  String.mk (rstripL (s.data.dropWhile isPySpace))

/-- Worker for `pySplit`: `acc` holds the current token reversed. -/
def pySplitAux : List Char → List Char → List String
  | [], acc => if acc.isEmpty then [] else [String.mk acc.reverse]
  | c :: t, acc =>
      if isPySpace c then
        if acc.isEmpty then pySplitAux t []
        else String.mk acc.reverse :: pySplitAux t []
      else pySplitAux t (c :: acc)

/-- Python `str.split()` (no argument): split on whitespace runs,
dropping empty fields. -/
def pySplit (s : String) : List String := pySplitAux s.data []

/-- Python `str.startswith`. -/
def startsWithStr (s p : String) : Bool := s.data.take p.data.length == p.data

/-- Python `part.split('=')[0]`: the prefix before the first `'='`. -/
def beforeEq (s : String) : String :=
  String.mk (s.data.takeWhile (fun c => c ≠ '='))

/-- Python `in` on strings: substring containment. -/
def strContainsSub (hay needle : String) : Bool :=
  hay.data.tails.any (fun t => t.take needle.data.length == needle.data)

/-- Code-point lexicographic `≤` on strings, the order of Python `sorted`. -/
def charListLe : List Char → List Char → Bool
  | [], _ => true
  | _ :: _, [] => false
  | a :: as, b :: bs => if a = b then charListLe as bs else decide (a < b)

/-- `≤` on strings. -/
def strLe (a b : String) : Bool := charListLe a.data b.data

/-- Insertion into a sorted list (stable, as Python `sorted`). -/
def insSorted (x : String) : List String → List String
  | [] => [x]
  | y :: ys => if strLe x y then x :: y :: ys else y :: insSorted x ys

/-- Python `sorted` on a list of strings. -/
def sortStrs : List String → List String
  | [] => []
  | x :: xs => insSorted x (sortStrs xs)

/-! ### `CommandVerifier.is_safe_command` -/

/-- The reason built at line 188 of `command_verifier.py`:
`f"Command verb '{verb}' is not read-only. Safe verbs are: {', '.join(sorted(cls.READ_ONLY_VERBS))}"`. -/
def verbRejectMsg (verb : String) : String :=
  "Command verb \x27" ++ verb ++ "\x27 is not read-only. Safe verbs are: " ++
    String.intercalate ", " (sortStrs READ_ONLY_VERBS)

/-- The reason built at line 201: the offending regex source is named. -/
def dangerMsg (p : String) : String :=
  "Command contains potentially dangerous pattern: " ++ p

/-- The reason built at line 211. -/
def flagMsg (f : String) : String := "Unsafe flag or option: " ++ f

/-- Does any `ALLOWED_PATTERNS` regex match anywhere in the command?
(The source checks this against the whole command for every danger match.) -/
def anyAllowed (c : String) : Bool :=
  ALLOWED_PATTERNS.any (fun p => reSearch p.re c.data)

/-- The danger-pattern loop of lines 190-201: for each pattern (in order)
that matches the command case-insensitively, the command is rejected with
that pattern named — unless some allowed pattern matches anywhere in the
command, in which case the loop moves on.  `some p` is the source text of
the pattern named in the rejection; `none` means the loop fell through. -/
def scanDanger : List Pat → String → Option String
  | [], _ => none
  | p :: ps, c =>
      if reSearch p.re (strLower c).data then
        if anyAllowed c then scanDanger ps c else some p.src
      else scanDanger ps c

/-- The flag loop of lines 204-211: the first token after the verb that
starts with `'-'` and whose part before `'='` is not in `SAFE_FLAGS`
causes rejection. -/
def scanFlags : List String → Option String
  | [] => none
  | p :: ps =>
      if startsWithStr p "-" then
        let flag := beforeEq p
        if SAFE_FLAGS.contains flag then scanFlags ps else some flag
      else scanFlags ps

/-- `any(not p.startswith('-') for p in parts[2:])` of lines 216/221/226.
(The `len(parts) < 3` disjunct of the source is subsumed: `any` over an
empty list is already false.) -/
def hasNonFlagToken (ps : List String) : Bool :=
  ps.any (fun p => !startsWithStr p "-")

/-- `CommandVerifier.is_safe_command` (lines 156-234).  The `try/except`
of the source has no failure source in this pure model; all remaining
control flow is reproduced branch by branch. -/
def is_safe_command (command : String) : Bool × String :=
  -- `if not command or not command.strip()` ⟺ the stripped command is empty
  if (pyStrip command).data.isEmpty then (false, "Empty command")
  else
    let cmd := pyStrip command
    if !startsWithStr cmd "kubectl" then
      (false, "Command must start with \x27kubectl\x27")
    else
      match pySplit cmd with
      | [] => (false, "Incomplete kubectl command")
      | [_] => (false, "Incomplete kubectl command")
      | _ :: verb :: rest =>
        if !READ_ONLY_VERBS.contains verb then (false, verbRejectMsg verb)
        else
          match scanDanger DANGER_PATTERNS cmd with
          | some p => (false, dangerMsg p)
          | none =>
            match scanFlags rest with
            | some f => (false, flagMsg f)
            | none =>
              if verb = "logs" && !hasNonFlagToken rest then
                (false, "logs command requires a pod name")
              else if verb = "get" && !hasNonFlagToken rest then
                (false, "get command requires a resource type")
              else if verb = "describe" && !hasNonFlagToken rest then
                (false, "describe command requires a resource type and name")
              else (true, "Command is safe")

/-! ### Data model of `question_classifier.py` -/

inductive QuestionType where
  | SIMPLE_LISTING
  | MODERATE_INVESTIGATION
  | DEEP_ANALYSIS
  | UNKNOWN
deriving DecidableEq, Repr

inductive StrategyType where
  | SIMPLE_DISCOVERY
  | MODERATE_INVESTIGATION
  | DEEP_ANALYSIS
deriving DecidableEq, Repr

/-- `ClassificationResult` of the source.  `suggested_max_commands` is an
unbounded integer, as Python `int` is. -/
structure ClassificationResult where
  question_type : QuestionType
  strategy_type : StrategyType
  complexity_score : Rat
  confidence : Rat
  reasoning : String
  suggested_max_commands : Int
  follow_up_allowed : Bool
  response_style : String
  classification_method : String
deriving DecidableEq, Repr

/-- A conversation-history entry: the `{'role': ..., 'message': ...}`
dictionaries read by the classifier (entries are assumed to carry both
keys, as every caller in the repository builds them). -/
structure ConvMsg where
  role : String
  message : String
deriving DecidableEq, Repr

/-! ### Keyword pattern groups (`_init_keyword_patterns`) -/

/-- A weighted pattern group of `_init_keyword_patterns`. -/
structure PatGroup where
  keywords : List Pat
  score_impact : Rat
  confidence_boost : Rat

/-- `self.deep_analysis_patterns`. -/
def deep_analysis_patterns : PatGroup where
  keywords := [
    ⟨"investigate", .lit "investigate"⟩,
    ⟨"analyze", .lit "analyze"⟩,
    ⟨"debug", .lit "debug"⟩,
    ⟨"troubleshoot", .lit "troubleshoot"⟩,
    ⟨"what\\s+wrong\\s+with",
      .cat (.lit "what") (.cat (.plus .wsp) (.cat (.lit "wrong") (.cat (.plus .wsp) (.lit "with"))))⟩,
    ⟨"why\\s+is\\s+\\w+\\s+(failing|stuck|crashing)",
      .cat (.lit "why") (.cat (.plus .wsp) (.cat (.lit "is") (.cat (.plus .wsp)
        (.cat (.plus (.cls isWordChar)) (.cat (.plus .wsp)
          (RE.alts [.lit "failing", .lit "stuck", .lit "crashing"]))))))⟩,
    ⟨"root\\s+cause", .cat (.lit "root") (.cat (.plus .wsp) (.lit "cause"))⟩,
    ⟨"diagnose", .lit "diagnose"⟩,
    ⟨"examine\\s+in\\s+detail",
      .cat (.lit "examine") (.cat (.plus .wsp) (.cat (.lit "in") (.cat (.plus .wsp) (.lit "detail"))))⟩]
  score_impact := 3/5
  confidence_boost := 3/10

/-- `self.moderate_investigation_patterns`. -/
def moderate_investigation_patterns : PatGroup where
  keywords := [
    ⟨"check\\s+status", .cat (.lit "check") (.cat (.plus .wsp) (.lit "status"))⟩,
    ⟨"verify", .lit "verify"⟩,
    ⟨"validate", .lit "validate"⟩,
    ⟨"health\\s+check", .cat (.lit "health") (.cat (.plus .wsp) (.lit "check"))⟩,
    ⟨"is\\s+\\w+\\s+(running|working|ok)",
      .cat (.lit "is") (.cat (.plus .wsp) (.cat (.plus (.cls isWordChar)) (.cat (.plus .wsp)
        (RE.alts [.lit "running", .lit "working", .lit "ok"]))))⟩,
    ⟨"problems?\\s+with",
      .cat (.lit "problem") (.cat (.opt (.chc 's')) (.cat (.plus .wsp) (.lit "with")))⟩,
    ⟨"issues?\\s+with",
      .cat (.lit "issue") (.cat (.opt (.chc 's')) (.cat (.plus .wsp) (.lit "with")))⟩]
  score_impact := 3/10
  confidence_boost := 1/5

/-- `self.simple_listing_patterns`. -/
def simple_listing_patterns : PatGroup where
  keywords := [
    ⟨"show\\s+me", .cat (.lit "show") (.cat (.plus .wsp) (.lit "me"))⟩,
    ⟨"list\\s+\\w+", .cat (.lit "list") (.cat (.plus .wsp) (.plus (.cls isWordChar)))⟩,
    ⟨"get\\s+\\w+", .cat (.lit "get") (.cat (.plus .wsp) (.plus (.cls isWordChar)))⟩,
    ⟨"what\\s+(pods|deployments|services|namespaces)",
      .cat (.lit "what") (.cat (.plus .wsp)
        (RE.alts [.lit "pods", .lit "deployments", .lit "services", .lit "namespaces"]))⟩,
    ⟨"how\\s+many", .cat (.lit "how") (.cat (.plus .wsp) (.lit "many"))⟩,
    ⟨"display\\s+\\w+", .cat (.lit "display") (.cat (.plus .wsp) (.plus (.cls isWordChar)))⟩]
  score_impact := -(1/5)
  confidence_boost := 1/5

/-- `self.negative_patterns`. -/
def negative_patterns : PatGroup where
  keywords := [
    ⟨"quick\\s+check", .cat (.lit "quick") (.cat (.plus .wsp) (.lit "check"))⟩,
    ⟨"brief\\s+overview", .cat (.lit "brief") (.cat (.plus .wsp) (.lit "overview"))⟩,
    ⟨"simple\\s+list", .cat (.lit "simple") (.cat (.plus .wsp) (.lit "list"))⟩,
    ⟨"just\\s+show", .cat (.lit "just") (.cat (.plus .wsp) (.lit "show"))⟩,
    ⟨"only\\s+list", .cat (.lit "only") (.cat (.plus .wsp) (.lit "list"))⟩]
  score_impact := -(3/10)
  confidence_boost := 1/10

/-- `self.resource_complexity`, in insertion order.  The third component
is the Python `repr` of the float adjustment, as interpolated into the
reasoning string `f"Resource-specific: {resource} (+{adjustment})"`. -/
def resource_complexity : List (String × Rat × String) := [
  ("pod", 1/10, "0.1"),
  ("deployment", 3/20, "0.15"),
  ("service", 1/10, "0.1"),
  ("namespace", 1/20, "0.05"),
  ("cluster", 1/5, "0.2"),
  ("node", 3/20, "0.15"),
  ("configmap", 1/20, "0.05"),
  ("secret", 1/20, "0.05")]

/-! ### `_classify_by_keywords` -/

/-- One pattern-group scan of `_classify_by_keywords`: every matching
regex of the group adds the group deltas again and appends
`label ++ pattern` to the reasoning parts. -/
def applyGroup (label : String) (g : PatGroup) (ml : String)
    (st : Rat × Rat × List String) : Rat × Rat × List String :=
  g.keywords.foldl
    (fun st p =>
      if reSearch p.re ml.data then
        (st.1 + g.score_impact, st.2.1 + g.confidence_boost,
         st.2.2 ++ [label ++ p.src])
      else st)
    st

/-- The resource-complexity scan: substring containment in the lower-cased
message; each hit adjusts the score only. -/
def applyResources (ml : String) (st : Rat × Rat × List String) :
    Rat × Rat × List String :=
  resource_complexity.foldl
    (fun st r =>
      if strContainsSub ml r.1 then
        (st.1 + r.2.1, st.2.1,
         st.2.2 ++ ["Resource-specific: " ++ r.1 ++ " (+" ++ r.2.2 ++ ")"])
      else st)
    st

/-- Strict `<` on rationals as an executable boolean (Python float `<`). -/
def ratLt (a b : Rat) : Bool := Rat.blt a b

/-- `≤` on rationals as an executable boolean (Python float `<=`). -/
def ratLe (a b : Rat) : Bool := !Rat.blt b a

/-- Python `min(a, b)` on floats: `a` when `a <= b`, else `b`. -/
def pyMin (a b : Rat) : Rat := if ratLe a b then a else b

/-- Python `max(a, b)` on floats: `a` when `a >= b`, else `b`. -/
def pyMax (a b : Rat) : Rat := if ratLe b a then a else b

/-- Python `max(a, b)` on ints. -/
def pyMaxInt (a b : Int) : Int := if b ≤ a then a else b

/-- `max(0.0, min(1.0, x))`. -/
def clampScore (q : Rat) : Rat := pyMax 0 (pyMin 1 q)

/-- `max(0.1, min(1.0, x))` — the confidence clamp of the source keeps a
floor of 0.1. -/
def clampConf (q : Rat) : Rat := pyMax (1/10) (pyMin 1 q)

/-- `HybridQuestionClassifier._classify_by_keywords` (lines 174-240). -/
def classify_by_keywords (message : String) : ClassificationResult :=
  let ml := strLower message
  let st0 : Rat × Rat × List String := (1/2, 1/2, [])
  let st1 := applyGroup "Deep analysis pattern: " deep_analysis_patterns ml st0
  let st2 := applyGroup "Moderate investigation pattern: " moderate_investigation_patterns ml st1
  let st3 := applyGroup "Simple listing pattern: " simple_listing_patterns ml st2
  let st4 := applyGroup "Negative pattern: " negative_patterns ml st3
  let st5 := applyResources ml st4
  let base_score := clampScore st5.1
  let confidence := clampConf st5.2.1
  let question_type :=
    if ratLe (7/10) base_score then QuestionType.DEEP_ANALYSIS
    else if ratLe (2/5) base_score then QuestionType.MODERATE_INVESTIGATION
    else QuestionType.SIMPLE_LISTING
  let reasoning :=
    if st5.2.2.isEmpty then "No specific patterns detected"
    else String.intercalate "; " st5.2.2
  { question_type := question_type
    strategy_type := StrategyType.SIMPLE_DISCOVERY
    complexity_score := base_score
    confidence := confidence
    reasoning := reasoning
    suggested_max_commands := 1
    follow_up_allowed := false
    response_style := "concise"
    classification_method := "keyword" }

/-! ### Context awareness (`_init_context_rules`, `_matches_context_pattern`,
`_apply_context_awareness`) -/

/-- Patterns of the `investigation_continuation` rule. -/
def investigation_continuation_patterns : List RE :=
  [.lit "investigate", .lit "analyze", .lit "debug"]

/-- Patterns of the `simple_browsing` rule. -/
def simple_browsing_patterns : List RE :=
  [.lit "show", .lit "list", .lit "get"]

/-- Patterns of the `problem_followup` rule. -/
def problem_followup_patterns : List RE :=
  [.lit "error", .lit "fail", .lit "wrong", .lit "issue"]

/-- Python `xs[-n:]`: the trailing window of length at most `n`. -/
def lastN (n : Nat) (xs : List ConvMsg) : List ConvMsg :=
  xs.drop (xs.length - n)

/-- `HybridQuestionClassifier._matches_context_pattern` (lines 284-303):
skip when fewer messages than the window; otherwise count the `user`-role
messages of the trailing window whose lower-cased text matches some rule
pattern, and fire when the count reaches `window // 2` (integer
division, so 1 for the window of 3). -/
def matches_context_pattern (messages : List ConvMsg) (patterns : List RE)
    (window : Nat) : Bool :=
  if messages.length < window then false
  else
    let recentWindow := lastN window messages
    let patternCount :=
      (recentWindow.filter (fun m =>
        m.role == "user" &&
        patterns.any (fun p => reSearch p (strLower m.message).data))).length
    patternCount ≥ window / 2

/-- `HybridQuestionClassifier._apply_context_awareness` (lines 242-282).
The `message` parameter of the source is unused by its body and is
omitted.  Rules are checked in an `if`/`elif` chain, so at most one
fires. -/
def apply_context_awareness (result : ClassificationResult)
    (conversation_history : List ConvMsg) : ClassificationResult :=
  if conversation_history.isEmpty then result
  else
    let recent_messages := lastN 5 conversation_history
    let st :=
      if matches_context_pattern recent_messages investigation_continuation_patterns 3 then
        (result.complexity_score + 3/10, result.confidence + 1/5,
         ["Investigation continuation detected"])
      else if matches_context_pattern recent_messages simple_browsing_patterns 2 then
        (result.complexity_score - 1/5, result.confidence + 1/10,
         ["Simple browsing pattern detected"])
      else if matches_context_pattern recent_messages problem_followup_patterns 4 then
        (result.complexity_score + 2/5, result.confidence + 3/10,
         ["Problem follow-up detected"])
      else (result.complexity_score, result.confidence, [])
    let reasoning :=
      if st.2.2.isEmpty then result.reasoning
      else result.reasoning ++ "; Context: " ++ String.intercalate ", " st.2.2
    { result with
      complexity_score := clampScore st.1
      confidence := clampConf st.2.1
      reasoning := reasoning }

/-! ### A small JSON model for `_parse_ai_classification_response`

`json.loads` is modelled for the fragment exercised by the classifier:
objects, arrays, strings (with the common escapes), numbers, `true`,
`false`, `null`.  Unicode `\u` escapes and the non-standard
`NaN`/`Infinity` literals accepted by Python are outside the model; no
theorem below depends on them. -/

inductive JVal where
  | jnull
  | jbool (b : Bool)
  | jnum (q : Rat)
  | jstr (s : String)
  | jarr (xs : List JVal)
  | jobj (fields : List (String × JVal))
deriving Repr

/-- JSON insignificant whitespace. -/
def isJsonWs (c : Char) : Bool :=
  c = ' ' || c = '\t' || c = '\n' || c = '\r'

/-- Digit test. -/
def isDigitCh (c : Char) : Bool := '0' ≤ c && c ≤ '9'

/-- Value of a digit character. -/
def digitVal (c : Char) : Nat := c.toNat - '0'.toNat

/-- Parse a run of digits to a natural number, returning the remainder. -/
def parseDigits : List Char → Nat → Nat × Nat × List Char
  | [], acc => (acc, 0, [])
  | c :: t, acc =>
      if isDigitCh c then
        let r := parseDigits t (acc * 10 + digitVal c)
        (r.1, r.2.1 + 1, r.2.2)
      else (acc, 0, c :: t)

/-- Parse a JSON number (optional minus, integer part, optional fraction,
optional exponent) into an exact rational. -/
def parseNumber (l : List Char) : Option (Rat × List Char) :=
  let (neg, l1) := match l with
    | '-' :: t => (true, t)
    | _ => (false, l)
  let (ip, ic, l2) := parseDigits l1 0
  if ic = 0 then none
  else
    let (frac, l3) : Rat × List Char := match l2 with
      | '.' :: t =>
          let (fp, fc, rest) := parseDigits t 0
          ((fp : Rat) / ((10 : Rat) ^ fc), rest)
      | _ => (0, l2)
    let (ex, l4) : Option Int × List Char := match l3 with
      | 'e' :: t | 'E' :: t =>
          (match t with
           | '+' :: u => let (ep, ec, rest) := parseDigits u 0
                         (if ec = 0 then none else some (ep : Int), rest)
           | '-' :: u => let (ep, ec, rest) := parseDigits u 0
                         (if ec = 0 then none else some (-(ep : Int)), rest)
           | _ => let (ep, ec, rest) := parseDigits t 0
                  (if ec = 0 then none else some (ep : Int), rest))
      | _ => (some 0, l3)
    match ex with
    | none => none
    | some e =>
        let mag : Rat := ((ip : Rat) + frac) * (10 : Rat) ^ e
        some ((if neg then -mag else mag), l4)

/-- Parse a JSON string body after the opening quote. -/
def parseJStr : Nat → List Char → Option (String × List Char)
  | 0, _ => none
  | _ + 1, [] => none
  | f + 1, c :: t =>
      if c = '"' then some ("", t)
      else if c = '\\' then
        match t with
        | [] => none
        | e :: u =>
            let dec : Option Char :=
              if e = '"' then some '"'
              else if e = '\\' then some '\\'
              else if e = '/' then some '/'
              else if e = 'n' then some '\n'
              else if e = 't' then some '\t'
              else if e = 'r' then some '\r'
              else if e = 'b' then some '\x08'
              else if e = 'f' then some '\x0c'
              else none
            match dec with
            | none => none
            | some d =>
                match parseJStr f u with
                | none => none
                | some (s, rest) => some (String.mk (d :: s.data), rest)
      else
        match parseJStr f t with
        | none => none
        | some (s, rest) => some (String.mk (c :: s.data), rest)

mutual

/-- JSON value parser, fuelled by the input length. -/
def parseJVal : Nat → List Char → Option (JVal × List Char)
  | 0, _ => none
  | f + 1, l =>
    match l.dropWhile isJsonWs with
    | [] => none
    | c :: t =>
      if c = '{' then
        match t.dropWhile isJsonWs with
        | '}' :: u => some (.jobj [], u)
        | _ => parseJObj f t []
      else if c = '[' then
        match t.dropWhile isJsonWs with
        | ']' :: u => some (.jarr [], u)
        | _ => parseJArr f t []
      else if c = '"' then
        match parseJStr (t.length + 1) t with
        | none => none
        | some (s, rest) => some (.jstr s, rest)
      else if c = 't' then
        match c :: t with
        | 't' :: 'r' :: 'u' :: 'e' :: u => some (.jbool true, u)
        | _ => none
      else if c = 'f' then
        match c :: t with
        | 'f' :: 'a' :: 'l' :: 's' :: 'e' :: u => some (.jbool false, u)
        | _ => none
      else if c = 'n' then
        match c :: t with
        | 'n' :: 'u' :: 'l' :: 'l' :: u => some (.jnull, u)
        | _ => none
      else
        match parseNumber (c :: t) with
        | none => none
        | some (q, rest) => some (.jnum q, rest)

/-- Parse array elements after `[`. -/
def parseJArr : Nat → List Char → List JVal → Option (JVal × List Char)
  | 0, _, _ => none
  | f + 1, l, acc =>
    match parseJVal f l with
    | none => none
    | some (v, rest) =>
      match rest.dropWhile isJsonWs with
      | ',' :: u => parseJArr f u (acc ++ [v])
      | ']' :: u => some (.jarr (acc ++ [v]), u)
      | _ => none

/-- Parse object members after `{`. -/
def parseJObj : Nat → List Char → List (String × JVal) → Option (JVal × List Char)
  | 0, _, _ => none
  | f + 1, l, acc =>
    match l.dropWhile isJsonWs with
    | '"' :: t =>
      match parseJStr (t.length + 1) t with
      | none => none
      | some (key, rest) =>
        match rest.dropWhile isJsonWs with
        | ':' :: u =>
          (match parseJVal f u with
           | none => none
           | some (v, rest2) =>
             match rest2.dropWhile isJsonWs with
             | ',' :: u2 => parseJObj f u2 (acc ++ [(key, v)])
             | '}' :: u2 => some (.jobj (acc ++ [(key, v)]), u2)
             | _ => none)
        | _ => none
    | _ => none

end

/-- `json.loads`: the whole input must be one JSON value, possibly
surrounded by whitespace. -/
def jsonLoads (s : String) : Option JVal :=
  match parseJVal (s.data.length + 1) s.data with
  | none => none
  | some (v, rest) => if (rest.dropWhile isJsonWs).isEmpty then some v else none

/-- `re.search(r'\{.*\}', ai_response, re.DOTALL)`: with the greedy
`.*` under `DOTALL` this is the slice from the first `'{'` through the
last `'}'`, provided some `'}'` follows the first `'{'`. -/
def extractJson (s : String) : Option String :=
  match s.data.findIdx? (fun c => c = '{') with
  | none => none
  | some i =>
    let rest := s.data.drop i
    match rest.reverse.findIdx? (fun c => c = '}') with
    | none => none
    | some rj =>
      let j := rest.length - 1 - rj
      if j = 0 then none else some (String.mk (rest.take (j + 1)))

/-- Python-dict lookup (`dict.get`): `json.loads` keeps the last binding
of a duplicated key, so the lookup scans from the right. -/
def objGet (fields : List (String × JVal)) (key : String) : Option JVal :=
  (fields.reverse.find? (fun kv => kv.1 == key)).map (·.2)

/-- Python `float(x)` on a JSON-decoded value: numbers pass through,
booleans become 0/1, numeric strings are converted, everything else
raises (`none`). -/
def pyFloat : JVal → Option Rat
  | .jnum q => some q
  | .jbool b => some (if b then 1 else 0)
  | .jstr s =>
      match parseNumber ((s.data.dropWhile isPySpace).reverse.dropWhile isPySpace).reverse with
      | some (q, []) => some q
      | _ => none
  | _ => none

/-- Truncation of a rational toward zero, as Python `int(float)`. -/
def ratTrunc (q : Rat) : Int := q.num.tdiv (q.den : Int)

/-- Python `int(x)` on a JSON-decoded value: floats truncate toward zero,
booleans become 0/1, strings of an integer literal convert, everything
else raises (`none`). -/
def pyInt : JVal → Option Int
  | .jnum q => some (ratTrunc q)
  | .jbool b => some (if b then 1 else 0)
  | .jstr s =>
      let body := ((s.data.dropWhile isPySpace).reverse.dropWhile isPySpace).reverse
      let (neg, l1) := match body with
        | '-' :: t => (true, t)
        | '+' :: t => (false, t)
        | _ => (false, body)
      let (n, c, rest) := parseDigits l1 0
      if c > 0 ∧ rest = [] then some (if neg then -(n : Int) else (n : Int)) else none
  | _ => none

/-- Python truthiness (`bool(x)`) of a JSON-decoded value. -/
def pyTruthy : JVal → Bool
  | .jnull => false
  | .jbool b => b
  | .jnum q => q ≠ 0
  | .jstr s => !s.isEmpty
  | .jarr xs => !xs.isEmpty
  | .jobj fs => !fs.isEmpty

/-- Rendering of a JSON value used when a non-string lands in the
`reasoning`/`response_style` slots (Python would store the raw dynamic
value there; this printable stand-in is never inspected by a theorem). -/
def jvalRender : JVal → String
  | .jnull => "None"
  | .jbool b => if b then "True" else "False"
  | .jnum q => toString q.num ++ "/" ++ toString q.den
  | .jstr s => s
  | .jarr _ => "[...]"
  | .jobj _ => "\x7b...\x7d"

/-- String field extraction with default, as
`ai_data.get('reasoning', 'AI classification')`. -/
def strFieldOr (fields : List (String × JVal)) (key fallbackVal : String) : String :=
  match objGet fields key with
  | none => fallbackVal
  | some v => jvalRender v

/-! ### AI fallback, combination, strategy resolution -/

/-- `HybridQuestionClassifier._get_fallback_classification` (lines
465-497). -/
def get_fallback_classification (message : String) : ClassificationResult :=
  let ml := strLower message
  if ["wrong", "error", "fail", "investigate"].any (fun w => strContainsSub ml w) then
    { question_type := QuestionType.MODERATE_INVESTIGATION
      strategy_type := StrategyType.MODERATE_INVESTIGATION
      complexity_score := 3/5
      confidence := 3/10
      reasoning := "Fallback classification due to error"
      suggested_max_commands := 2
      follow_up_allowed := true
      response_style := "detailed"
      classification_method := "fallback" }
  else
    { question_type := QuestionType.SIMPLE_LISTING
      strategy_type := StrategyType.SIMPLE_DISCOVERY
      complexity_score := 3/10
      confidence := 3/10
      reasoning := "Fallback classification due to error"
      suggested_max_commands := 1
      follow_up_allowed := false
      response_style := "concise"
      classification_method := "fallback" }

/-- `question_type_map` of `_parse_ai_classification_response`. -/
def question_type_map (v : Option JVal) : QuestionType :=
  match v with
  | some (.jstr "simple_listing") => QuestionType.SIMPLE_LISTING
  | some (.jstr "moderate_investigation") => QuestionType.MODERATE_INVESTIGATION
  | some (.jstr "deep_analysis") => QuestionType.DEEP_ANALYSIS
  | _ => QuestionType.UNKNOWN

/-- `strategy_type_map` of `_parse_ai_classification_response` (keyed by
the same `question_type` string). -/
def strategy_type_map (v : Option JVal) : StrategyType :=
  match v with
  | some (.jstr "simple_listing") => StrategyType.SIMPLE_DISCOVERY
  | some (.jstr "moderate_investigation") => StrategyType.MODERATE_INVESTIGATION
  | some (.jstr "deep_analysis") => StrategyType.DEEP_ANALYSIS
  | _ => StrategyType.SIMPLE_DISCOVERY

/-- `HybridQuestionClassifier._parse_ai_classification_response` (lines
363-403): extract the brace-delimited slice, decode it, build the result
with Python conversions and per-field defaults; any failure (no JSON
found, decode error, failing `float`/`int` conversion) is caught and
degrades to `_get_fallback_classification("AI parsing failed")`.
No clamping is applied to the AI-supplied numbers. -/
def parse_ai_classification_response (ai_response : String) : ClassificationResult :=
  let parsed : Option ClassificationResult := do
    let js ← extractJson ai_response
    let v ← jsonLoads js
    match v with
    | .jobj fields =>
        let qt := objGet fields "question_type"
        let score ← pyFloat ((objGet fields "complexity_score").getD (.jnum (1/2)))
        let conf ← pyFloat ((objGet fields "confidence").getD (.jnum (1/2)))
        let maxc ← pyInt ((objGet fields "suggested_max_commands").getD (.jnum 1))
        let follow := pyTruthy ((objGet fields "follow_up_allowed").getD (.jbool false))
        pure
          { question_type := question_type_map qt
            strategy_type := strategy_type_map qt
            complexity_score := score
            confidence := conf
            reasoning := strFieldOr fields "reasoning" "AI classification"
            suggested_max_commands := maxc
            follow_up_allowed := follow
            response_style := strFieldOr fields "response_style" "concise"
            classification_method := "ai" }
    | _ => none
  match parsed with
  | some r => r
  | none => get_fallback_classification "AI parsing failed"

/-- The injected AI collaborator, as observed by the classifier: either
its `classify_question` call raises, or it returns a response string.
(The prompt built by `_build_ai_classification_prompt` does not influence
which of the two happens in the source's error handling.) -/
inductive AIBehavior where
  | raises
  | responds (response : String)

/-- `HybridQuestionClassifier._classify_with_ai` (lines 305-322): a raise
from the collaborator is caught and degrades to the fallback
classification for the original message; otherwise the response is
parsed. -/
def classify_with_ai (message : String) (b : AIBehavior) : ClassificationResult :=
  match b with
  | .raises => get_fallback_classification message
  | .responds r => parse_ai_classification_response r

/-- `HybridQuestionClassifier._combine_classification_results` (lines
405-438): weighted average with keyword weight 0.4 and AI weight 0.6; the
categorical fields follow whichever side has strictly higher confidence
(ties favour the keyword side); no clamping. -/
def combine_classification_results (keyword_result ai_result : ClassificationResult) :
    ClassificationResult :=
  let keyword_weight : Rat := 2/5
  let ai_weight : Rat := 3/5
  let aiWins := ratLt keyword_result.confidence ai_result.confidence
  { question_type := if aiWins then ai_result.question_type else keyword_result.question_type
    strategy_type := if aiWins then ai_result.strategy_type else keyword_result.strategy_type
    complexity_score := keyword_result.complexity_score * keyword_weight +
      ai_result.complexity_score * ai_weight
    confidence := keyword_result.confidence * keyword_weight +
      ai_result.confidence * ai_weight
    reasoning := "Keyword: " ++ keyword_result.reasoning ++ "; AI: " ++ ai_result.reasoning
    suggested_max_commands := pyMaxInt keyword_result.suggested_max_commands
      ai_result.suggested_max_commands
    follow_up_allowed := keyword_result.follow_up_allowed || ai_result.follow_up_allowed
    response_style := if aiWins then ai_result.response_style else keyword_result.response_style
    classification_method := "hybrid" }

/-- `HybridQuestionClassifier._determine_strategy_parameters` (lines
440-463): the final override from the final `complexity_score` tier. -/
def determine_strategy_parameters (r : ClassificationResult) : ClassificationResult :=
  if ratLe (7/10) r.complexity_score then
    { r with
      question_type := QuestionType.DEEP_ANALYSIS
      strategy_type := StrategyType.DEEP_ANALYSIS
      suggested_max_commands := pyMaxInt 3 r.suggested_max_commands
      follow_up_allowed := true
      response_style := "comprehensive" }
  else if ratLe (2/5) r.complexity_score then
    { r with
      question_type := QuestionType.MODERATE_INVESTIGATION
      strategy_type := StrategyType.MODERATE_INVESTIGATION
      suggested_max_commands := pyMaxInt 2 r.suggested_max_commands
      follow_up_allowed := true
      response_style := "detailed" }
  else
    { r with
      question_type := QuestionType.SIMPLE_LISTING
      strategy_type := StrategyType.SIMPLE_DISCOVERY
      suggested_max_commands := 1
      follow_up_allowed := false
      response_style := "concise" }

/-- `HybridQuestionClassifier.classify_question` (lines 123-172).
`ai_client = none` models `ai_client=None`; `conversation_history = []`
models both `None` and the empty list (the source only tests truthiness).
The AI fallback runs exactly when the context-adjusted confidence is
below 0.7 and a client is present.  The outer `try/except` of the source
has no raising step left in this pure model (raises of the collaborator
are already caught inside `_classify_with_ai`). -/
def classify_question (message : String) (conversation_history : List ConvMsg)
    (ai_client : Option AIBehavior) : ClassificationResult :=
  let keyword_result := classify_by_keywords message
  let context_adjusted_result :=
    apply_context_awareness keyword_result conversation_history
  let final_result :=
    match ai_client with
    | some b =>
        if ratLt context_adjusted_result.confidence (7/10) then
          combine_classification_results context_adjusted_result
            (classify_with_ai message b)
        else { context_adjusted_result with classification_method := "keyword_context" }
    | none => { context_adjusted_result with classification_method := "keyword_context" }
  determine_strategy_parameters final_result

/-! ### Concrete inputs used by the claim theorems -/

/-- An AI collaborator response whose JSON carries out-of-range scores
(`complexity_score` and `confidence` of 5.0). -/
def aiRespOutOfRangeScore : String :=
  "\x7b\"complexity_score\": 5.0, \"confidence\": 5.0, " ++
  "\"question_type\": \"deep_analysis\", \"reasoning\": \"looks broken\", " ++
  "\"suggested_max_commands\": 4, \"follow_up_allowed\": true, " ++
  "\"response_style\": \"comprehensive\"\x7d"

/-- An AI collaborator response whose JSON carries an out-of-range
`suggested_max_commands` of 100. -/
def aiRespOutOfRangeCommands : String :=
  "\x7b\"complexity_score\": 0.9, \"confidence\": 0.9, " ++
  "\"question_type\": \"deep_analysis\", \"reasoning\": \"x\", " ++
  "\"suggested_max_commands\": 100, \"follow_up_allowed\": true, " ++
  "\"response_style\": \"comprehensive\"\x7d"

/-- A three-message all-user history in which exactly one message (the
first) matches an investigation-style pattern. -/
def oneOfThreeInvestigating : List ConvMsg :=
  [⟨"user", "investigate the crash"⟩, ⟨"user", "hello"⟩, ⟨"user", "hello"⟩]

/-! ## Helper lemmas

`str.strip()` does not change the result of `str.split()`, and it
preserves a non-whitespace-initial prefix such as `kubectl`.  These
lemmas let theorems about `is_safe_command` take their hypotheses on the
original, unstripped command string. -/

theorem pySplitAux_allspace (s : List Char) (acc : List Char)
    (h : ∀ c ∈ s, isPySpace c = true) :
    pySplitAux s acc = if acc.isEmpty then [] else [String.mk acc.reverse] := by
  induction s generalizing acc with
  | nil => rfl
  | cons c t ih =>
    have hc : isPySpace c = true := h c (List.mem_cons_self c t)
    have ht : ∀ d ∈ t, isPySpace d = true := fun d hd => h d (List.mem_cons_of_mem c hd)
    by_cases ha : acc.isEmpty
    · simp [pySplitAux, hc, ha, ih [] ht]
    · simp [pySplitAux, hc, ha, ih [] ht]

theorem pySplitAux_append_allspace (m s : List Char) (acc : List Char)
    (h : ∀ c ∈ s, isPySpace c = true) :
    pySplitAux (m ++ s) acc = pySplitAux m acc := by
  induction m generalizing acc with
  | nil =>
    simp only [List.nil_append]
    rw [pySplitAux_allspace s acc h]
    rfl
  | cons c t ih =>
    by_cases hc : isPySpace c
    · by_cases ha : acc.isEmpty
      · simp [pySplitAux, hc, ha, ih]
      · simp [pySplitAux, hc, ha, ih]
    · simp [pySplitAux, hc, ih]

theorem pySplitAux_dropWhile (l : List Char) :
    pySplitAux (l.dropWhile isPySpace) [] = pySplitAux l [] := by
  induction l with
  | nil => rfl
  | cons c t ih =>
    by_cases hc : isPySpace c
    · simp [List.dropWhile, hc, ih, pySplitAux]
    · simp [List.dropWhile, hc]

theorem pySplit_pyStrip (s : String) : pySplit (pyStrip s) = pySplit s := by
  show pySplitAux (((s.data.dropWhile isPySpace).reverse.dropWhile isPySpace).reverse) [] =
    pySplitAux s.data []
  set d := s.data.dropWhile isPySpace with hd
  have hdecomp : d = (d.reverse.dropWhile isPySpace).reverse ++
      (d.reverse.takeWhile isPySpace).reverse := by
    conv_lhs => rw [← List.reverse_reverse d, ← List.takeWhile_append_dropWhile
      (p := isPySpace) (l := d.reverse)]
    rw [List.reverse_append]
  have hsp : ∀ c ∈ (d.reverse.takeWhile isPySpace).reverse, isPySpace c = true := by
    intro c hc
    rw [List.mem_reverse] at hc
    exact List.mem_takeWhile_imp hc
  calc pySplitAux ((d.reverse.dropWhile isPySpace).reverse) []
      = pySplitAux ((d.reverse.dropWhile isPySpace).reverse ++
          (d.reverse.takeWhile isPySpace).reverse) [] :=
        (pySplitAux_append_allspace _ _ [] hsp).symm
    _ = pySplitAux d [] := by rw [← hdecomp]
    _ = pySplitAux s.data [] := pySplitAux_dropWhile s.data

theorem dropWhile_eq_self_of_head (l : List Char)
    (h : ∀ a ∈ l, isPySpace a = false) : l.dropWhile isPySpace = l := by
  cases l with
  | nil => rfl
  | cons a t => simp [List.dropWhile, h a (List.mem_cons_self a t)]

theorem rstripL_append_nonspace (p t : List Char)
    (hp : ∀ a ∈ p, isPySpace a = false) :
    rstripL (p ++ t) = p ++ rstripL t := by
  unfold rstripL
  rw [List.reverse_append, List.dropWhile_append]
  by_cases hd : (t.reverse.dropWhile isPySpace).isEmpty
  · have hnil : t.reverse.dropWhile isPySpace = [] := by
      simpa [List.isEmpty_iff] using hd
    have hps : p.reverse.dropWhile isPySpace = p.reverse :=
      dropWhile_eq_self_of_head p.reverse
        (fun a ha => hp a (List.mem_reverse.mp ha))
    simp [hd, hps, hnil]
  · simp [hd, List.reverse_append]

theorem pyStrip_data_of_kubectl (c : String)
    (h : startsWithStr c "kubectl" = true) :
    (pyStrip c).data = "kubectl".data ++ rstripL (c.data.drop "kubectl".data.length) := by
  have htake : c.data.take "kubectl".data.length = "kubectl".data := by
    unfold startsWithStr at h
    exact eq_of_beq h
  have hdecomp : c.data = "kubectl".data ++ c.data.drop "kubectl".data.length := by
    conv_lhs => rw [← List.take_append_drop ("kubectl".data.length) c.data]
    rw [htake]
  have hk : "kubectl".data = 'k' :: "ubectl".data := rfl
  have hdw : c.data.dropWhile isPySpace = c.data := by
    rw [hdecomp, hk]
    simp [List.dropWhile, isPySpace]
  show (rstripL (c.data.dropWhile isPySpace)) = _
  rw [hdw]
  conv_lhs => rw [hdecomp]
  exact rstripL_append_nonspace _ _ (by decide)

theorem pyStrip_nonempty_of_kubectl (c : String)
    (h : startsWithStr c "kubectl" = true) :
    (pyStrip c).data.isEmpty = false := by
  rw [pyStrip_data_of_kubectl c h]
  rfl

theorem pyStrip_startsWith_of_kubectl (c : String)
    (h : startsWithStr c "kubectl" = true) :
    startsWithStr (pyStrip c) "kubectl" = true := by
  unfold startsWithStr
  rw [pyStrip_data_of_kubectl c h, List.take_left]
  exact beq_self_eq_true _

/-! ## Claim theorems -/

/-- Claim C5: for every command string that starts with the literal
`kubectl` and has at least two whitespace-separated tokens, if the second
token (the verb) is not in the read-only verb allow-list, then
`is_safe_command` rejects it with a reason naming the verb and the
allowed verbs; the accompanying conjunct exhibits the sorted enumeration
of the allow-list interpolated into that reason. -/
theorem c5_verb_allowlist (c w verb : String) (rest : List String)
    (h1 : startsWithStr c "kubectl" = true)
    (h2 : pySplit c = w :: verb :: rest)
    (h3 : READ_ONLY_VERBS.contains verb = false) :
    is_safe_command c = (false, verbRejectMsg verb) ∧
    String.intercalate ", " (sortStrs READ_ONLY_VERBS) =
      "api-versions, auth, cluster-info, config, describe, explain, get, help, logs, top, version, view" := by
  have hempty := pyStrip_nonempty_of_kubectl c h1
  have hstart := pyStrip_startsWith_of_kubectl c h1
  have hsplit : pySplit (pyStrip c) = w :: verb :: rest :=
    (pySplit_pyStrip c).trans h2
  refine ⟨?_, by decide⟩
  unfold is_safe_command
  simp only [hempty, hstart, hsplit, h3, Bool.false_eq_true, if_false,
    Bool.not_true, Bool.not_false, if_true]

/-- Claim C5, witness: the theorem applied to
`kubectl delete pod my-pod`, whose verb `delete` is not allow-listed. -/
theorem c5_verb_allowlist_witness :
    is_safe_command "kubectl delete pod my-pod" =
      (false, verbRejectMsg "delete") ∧
    String.intercalate ", " (sortStrs READ_ONLY_VERBS) =
      "api-versions, auth, cluster-info, config, describe, explain, get, help, logs, top, version, view" :=
  c5_verb_allowlist "kubectl delete pod my-pod" "kubectl" "delete"
    ["pod", "my-pod"] (by decide) (by decide) (by decide)

/-- Claim C1, counterexample: the claim asserts that a dangerous match
that is itself not an allowed exception is rejected even when an
unrelated allowed pattern appears elsewhere in the command.  The command
`kubectl get pods <x> | rm /x` matches the pipe-to-destructive-utility
danger regex, yet `is_safe_command` accepts it, because the angle-bracket
token `<x>` matches an allow pattern somewhere in the command and the
allow check is performed on the whole command, not on the specific
match. -/
theorem c1_counterexample :
    reSearch (RE.cat (.chc '|') (.cat (.star .wsp) pipeTargets))
      (strLower "kubectl get pods <x> | rm /x").data = true ∧
    is_safe_command "kubectl get pods <x> | rm /x" = (true, "Command is safe") := by
  constructor
  · decide
  · decide

/-- Claim C1, amended: for every command that reaches the danger scan
(non-empty, `kubectl`-prefixed, with an allow-listed verb), if the scan
finds a matching danger pattern while no allow pattern matches anywhere
in the command — the condition under which `scanDanger` returns the first
matching pattern — the command is rejected with that pattern named in the
reason.  (The allow-exception check of the source is command-wide: any
allow-pattern occurrence anywhere excuses every danger match.) -/
theorem c1_amended_danger_rejection (c w verb p : String) (rest : List String)
    (h1 : startsWithStr c "kubectl" = true)
    (h2 : pySplit c = w :: verb :: rest)
    (h3 : READ_ONLY_VERBS.contains verb = true)
    (h4 : scanDanger DANGER_PATTERNS (pyStrip c) = some p) :
    is_safe_command c = (false, dangerMsg p) := by
  have hempty := pyStrip_nonempty_of_kubectl c h1
  have hstart := pyStrip_startsWith_of_kubectl c h1
  have hsplit : pySplit (pyStrip c) = w :: verb :: rest :=
    (pySplit_pyStrip c).trans h2
  unfold is_safe_command
  simp only [hempty, hstart, hsplit, h3, h4, Bool.false_eq_true, if_false,
    Bool.not_true, Bool.not_false, if_true]

/-- Claim C1, witness for the amended theorem: `kubectl get pods | rm /x`
contains no allow-pattern occurrence, so its pipe-to-`rm` match is
rejected with the pipe pattern named. -/
theorem c1_amended_danger_rejection_witness :
    is_safe_command "kubectl get pods | rm /x" =
      (false, dangerMsg "\\|\\s*(grep|awk|sed|xargs|rm|mv|cp|sh|bash|zsh|fish|python|perl|ruby|php)") :=
  c1_amended_danger_rejection "kubectl get pods | rm /x" "kubectl" "get"
    "\\|\\s*(grep|awk|sed|xargs|rm|mv|cp|sh|bash|zsh|fish|python|perl|ruby|php)"
    ["pods", "|", "rm", "/x"] (by decide) (by decide) (by decide) (by decide)

/-- Claim C2, counterexample: the claim asserts that
`classify_question("show me pods")` with no history and no AI client
yields `SIMPLE_LISTING` with `suggested_max_commands == 1` and
`follow_up_allowed == False`; the code instead yields
`MODERATE_INVESTIGATION` with 2 commands and follow-up allowed. -/
theorem c2_counterexample :
    (classify_question "show me pods" [] none).question_type ≠
      QuestionType.SIMPLE_LISTING ∧
    (classify_question "show me pods" [] none).suggested_max_commands = 2 ∧
    (classify_question "show me pods" [] none).follow_up_allowed = true := by
  refine ⟨?_, ?_, ?_⟩ <;> with_unfolding_all decide

/-- Claim C2, amended: `classify_question("show me pods")` (no history,
no AI client) returns `MODERATE_INVESTIGATION` with
`suggested_max_commands == 2` and `follow_up_allowed == True`: the
keyword score `0.5 − 0.2 (show me) + 0.1 (pod)` lands exactly on the 0.4
moderate-tier boundary (exactly 0.4 both in IEEE doubles and in exact
arithmetic). -/
theorem c2_amended_show_me_pods :
    (classify_question "show me pods" [] none).question_type =
      QuestionType.MODERATE_INVESTIGATION ∧
    (classify_question "show me pods" [] none).complexity_score = 2/5 ∧
    (classify_question "show me pods" [] none).suggested_max_commands = 2 ∧
    (classify_question "show me pods" [] none).follow_up_allowed = true := by
  refine ⟨?_, ?_, ?_, ?_⟩ <;> with_unfolding_all decide

set_option maxRecDepth 8000 in
/-- Claim C3: evaluation at the failing input.  With an empty message
(keyword confidence 0.5 < 0.7) and an AI response whose JSON carries
`complexity_score` and `confidence` of 5.0, the returned result has
`complexity_score = confidence = 0.4·0.5 + 0.6·5.0 = 3.2`, outside
`[0, 1]`: neither `_parse_ai_classification_response` nor
`_combine_classification_results` clamps. -/
theorem c3_out_of_range_scores :
    (classify_question "" [] (some (AIBehavior.responds aiRespOutOfRangeScore))).complexity_score = 16/5 ∧
    (classify_question "" [] (some (AIBehavior.responds aiRespOutOfRangeScore))).confidence = 16/5 := by
  constructor <;> with_unfolding_all decide

set_option maxRecDepth 8000 in
/-- Claim C4: evaluation at the failing input.  With an empty message and
an AI response carrying `suggested_max_commands` of 100 (and scores 0.9
pushing the combined score into the ≥ 0.7 tier), the returned
`suggested_max_commands` is `max(3, max(1, 100)) = 100`, outside
`{1,2,3,4}`. -/
theorem c4_out_of_range_commands :
    (classify_question "" [] (some (AIBehavior.responds aiRespOutOfRangeCommands))).suggested_max_commands = 100 := by
  with_unfolding_all decide

/-- Claim C6: evaluation at the failing input.  For the message `hello`
(neutral keyword score 0.5) with a three-message all-user history in
which only one message of the three matches an investigation regex, the
investigation-continuation boost fires (the code's threshold is
`window // 2 = 1`, not the claimed "at least half of 3", i.e. 2) and the
final score is 0.5 + 0.3 = 0.8; with no history the same message scores
0.5. -/
theorem c6_threshold_one_of_three :
    (classify_question "hello" oneOfThreeInvestigating none).complexity_score = 4/5 ∧
    (classify_question "hello" [] none).complexity_score = 1/2 := by
  constructor <;> with_unfolding_all decide

/-- Claim C7, counterexample: the claim's general clause says output
redirection is rejected for any target other than `/dev/null`, but a
redirection written without whitespace after `>` matches no danger regex:
`kubectl get svc >log.txt` is accepted. -/
theorem c7_counterexample :
    is_safe_command "kubectl get svc >log.txt" = (true, "Command is safe") := by
  decide

/-- Claim C7, amended: the two cited evaluations hold —
`kubectl get pods > /dev/null` is accepted and
`kubectl get pods > /tmp/out.txt` is rejected with the redirection danger
pattern named; the accepted-exactly-when-`/dev/null` reading holds for
redirections written with whitespace around `>` (the danger regex
requires whitespace on both sides), not for all redirections. -/
theorem c7_amended_redirection_carveout :
    is_safe_command "kubectl get pods > /dev/null" = (true, "Command is safe") ∧
    is_safe_command "kubectl get pods > /tmp/out.txt" =
      (false, dangerMsg "\\s>\\s+(?!/dev/null\\b)") := by
  constructor <;> decide

/-- Claim C9: a command with output redirection to a file other than
`/dev/null`, written without a space after `>`, matches no danger pattern
at all and is accepted. -/
theorem c9_redirection_without_space_accepted :
    (DANGER_PATTERNS.any (fun p => reSearch p.re (strLower "kubectl get pods >out").data)) = false ∧
    is_safe_command "kubectl get pods >out" = (true, "Command is safe") := by
  constructor <;> decide

/-- Claim C10: `kubectl get deployments.apps` has an allow-listed verb,
no flags and a resource argument, yet is rejected because the bare
substring danger regex `ps` matches inside `deployments.apps`. -/
theorem c10_bare_substring_rejection :
    is_safe_command "kubectl get deployments.apps" = (false, dangerMsg "ps") := by
  decide

/-- The final strategy override never changes the confidence. -/
theorem determine_strategy_confidence (r : ClassificationResult) :
    (determine_strategy_parameters r).confidence = r.confidence := by
  unfold determine_strategy_parameters
  split
  · rfl
  · split <;> rfl

/-- The final strategy override never changes the classification method. -/
theorem determine_strategy_method (r : ClassificationResult) :
    (determine_strategy_parameters r).classification_method =
      r.classification_method := by
  unfold determine_strategy_parameters
  split
  · rfl
  · split <;> rfl

/-- The fallback classification always carries confidence 0.3, whichever
branch is taken. -/
theorem fallback_confidence (message : String) :
    (get_fallback_classification message).confidence = 3/10 := by
  unfold get_fallback_classification
  by_cases hb : (["wrong", "error", "fail", "investigate"].any
      fun w => strContainsSub (strLower message) w) = true
  · simp only [hb, if_true]
  · simp only [Bool.not_eq_true] at hb
    simp only [hb, Bool.false_eq_true, if_false]

/-- Claim C8, counterexample: with an empty message (keyword confidence
0.5 < 0.7) and an AI collaborator whose call raises, the returned result
is not the fallback classification: the internally produced fallback is
merged with the keyword/context result, so the caller sees
`classification_method = "hybrid"` and confidence
`0.4·0.5 + 0.6·0.3 = 0.38`, not 0.3. -/
theorem c8_counterexample :
    (classify_question "" [] (some AIBehavior.raises)).classification_method = "hybrid" ∧
    (classify_question "" [] (some AIBehavior.raises)).confidence = 19/50 := by
  constructor <;> with_unfolding_all decide

/-- Claim C8, amended: `classify_question` is a total function of its
inputs (so it never propagates a raise), and when the AI collaborator's
call raises while the classifier consults it (context-adjusted
confidence below 0.7), the fallback classification (confidence 0.3) is
produced internally but merged with the keyword/context result: the
returned, fully populated result has `classification_method = "hybrid"`
and confidence `0.4·ctx + 0.6·0.3`, not the fallback's 0.3. -/
theorem c8_amended_raise_merged (message : String) (hist : List ConvMsg)
    (h : ratLt (apply_context_awareness (classify_by_keywords message) hist).confidence
      (7/10) = true) :
    (classify_question message hist (some AIBehavior.raises)).classification_method = "hybrid" ∧
    (classify_question message hist (some AIBehavior.raises)).confidence =
      (apply_context_awareness (classify_by_keywords message) hist).confidence * (2/5) +
        (3/10) * (3/5) := by
  have hfb : classify_with_ai message AIBehavior.raises =
      get_fallback_classification message := rfl
  unfold classify_question
  simp only [h, if_true, hfb]
  constructor
  · rw [determine_strategy_method]
    rfl
  · rw [determine_strategy_confidence]
    show (apply_context_awareness (classify_by_keywords message) hist).confidence * (2/5) +
        (get_fallback_classification message).confidence * (3/5) = _
    rw [fallback_confidence]

/-- Claim C8, witness for the amended theorem: the empty message with
no history has context-adjusted confidence 0.5 < 0.7, so consulting a
raising AI collaborator yields the merged `"hybrid"` result. -/
theorem c8_amended_raise_merged_witness :
    (classify_question "" [] (some AIBehavior.raises)).classification_method = "hybrid" ∧
    (classify_question "" [] (some AIBehavior.raises)).confidence =
      (apply_context_awareness (classify_by_keywords "") []).confidence * (2/5) +
        (3/10) * (3/5) :=
  c8_amended_raise_merged "" [] (by with_unfolding_all decide)

end SSD
